import Mathlib

/-
  Verification of the response-acquisition and fallback logic of
  `app.py` (the "Roast My SaaS Idea" single-page application).

  The embedding covers:
  * the Python string surgery in `get_ai_response` (strip, fence removal),
    modelled character-exactly on `List Char`;
  * `json.loads`, modelled by an executable recursive-descent parser over
    the JSON value grammar (objects, arrays, strings, integers, literals;
    fraction/exponent numbers are outside the model and no claim uses them);
  * `get_mock_response`, `get_mock_plan`, `get_ai_response`,
    `get_execution_plan`;
  * the per-session state (`st.session_state.roast_result` /
    `st.session_state.execution_plan`), the "Roast My Idea" button handler
    and the execution-plan expander.

  External collaborators are parameters: the completion call is a function
  `String → Except String String` from the prompt to either returned text
  (`Except.ok`) or a raised transport/quota error with its message
  (`Except.error`); the `random.choice` draw over the two canned roasts is
  an explicit index `Fin 2`.
-/

/-! ### Python string primitives -/

/-- Python `str.strip()` whitespace, restricted to the ASCII whitespace
    characters (space, tab, newline, carriage return, vertical tab, form
    feed).  No claim involves the wider Unicode whitespace set. -/
def isPyWs (c : Char) : Bool :=
  c = ' ' || c = '\t' || c = '\n' || c = '\x0d' || c = '\x0b' || c = '\x0c'

/-- JSON insignificant whitespace (RFC 8259), as skipped by `json.loads`. -/
def isJsonWs (c : Char) : Bool :=
  c = ' ' || c = '\t' || c = '\n' || c = '\x0d'

/-- Drop elements satisfying `q` from both ends. -/
def trimBy (q : Char → Bool) (cs : List Char) : List Char :=
  ((cs.dropWhile q).reverse.dropWhile q).reverse

/-- Python `s.strip()`. -/
def pyStrip (s : String) : String := ⟨trimBy isPyWs s.data⟩

/-- `p` is a prefix of `s`, computed character by character. -/
def hasPrefixChars : List Char → List Char → Bool
  | [], _ => true
  | _ :: _, [] => false
  | a :: as, b :: bs => if a = b then hasPrefixChars as bs else false

/-- Python `s.startswith(p)`. -/
def strStartsWith (s p : String) : Bool := hasPrefixChars p.data s.data

/-- Python `s.endswith(p)`. -/
def strEndsWith (s p : String) : Bool := hasPrefixChars p.data.reverse s.data.reverse

/-- Python `s[n:]`. -/
def strDrop (s : String) (n : Nat) : String := ⟨s.data.drop n⟩

/-- Python `s[:-n]` (for `n > 0`). -/
def strDropRight (s : String) (n : Nat) : String := ⟨(s.data.reverse.drop n).reverse⟩

/-! ### The JSON value model (`json.loads` output) -/

/-- A Python value produced by `json.loads`: `None`, `bool`, `int`, `str`,
    `list`, `dict` (an insertion-ordered association list).  JSON numbers
    with a fraction or exponent (Python `float`) are outside the model. -/
inductive Json where
  | null : Json
  | bool : Bool → Json
  | int : Int → Json
  | str : String → Json
  | arr : List Json → Json
  | obj : List (String × Json) → Json

/-- Python `d[k] = v` on an insertion-ordered dict: overwrite in place if
    the key exists, else append. -/
def assocSet : List (String × Json) → String → Json → List (String × Json)
  | [], k, v => [(k, v)]
  | (k0, v0) :: rest, k, v =>
      if k0 = k then (k, v) :: rest else (k0, v0) :: assocSet rest k v

/-- Python `d.get(k)` on a dict (and `None`-ish failure on non-dicts). -/
def Json.lookup : Json → String → Option Json
  | .obj kvs, k => go kvs k
  | _, _ => none
where
  go : List (String × Json) → String → Option Json
  | [], _ => none
  | (k0, v0) :: rest, k => if k0 = k then some v0 else go rest k

/-! ### `json.loads`, as a recursive-descent parser -/

/-- Skip JSON whitespace. -/
def skipWs : List Char → List Char
  | [] => []
  | c :: cs => if isJsonWs c then skipWs cs else c :: cs

/-- Body of a JSON string after the opening quote: plain characters up to
    the closing quote.  Escapes and raw control characters are refused
    (the model is partial there; no claim involves escapes). -/
def parseStringBody : List Char → Option (List Char × List Char)
  | [] => none
  | c :: cs =>
      if c = '"' then some ([], cs)
      else if c = '\\' then none
      else if c.toNat < 32 then none
      else
        match parseStringBody cs with
        | some (acc, rest) => some (c :: acc, rest)
        | none => none

/-- Longest digit prefix. -/
def spanDigits : List Char → List Char × List Char
  | [] => ([], [])
  | c :: cs =>
      if c.isDigit then
        let r := spanDigits cs
        (c :: r.1, r.2)
      else ([], c :: cs)

/-- Numeric value of a digit list. -/
def digitsVal (ds : List Char) : Nat :=
  ds.foldl (fun a c => a * 10 + (c.toNat - 48)) 0

/-- A JSON integer (optional minus, digits, no leading zero).  A following
    `.`/`e`/`E` (a float) is refused: floats are outside the model. -/
def parseIntFrom (cs : List Char) : Option (Json × List Char) :=
  let p := match cs with
    | '-' :: t => (true, t)
    | _ => (false, cs)
  match spanDigits p.2 with
  | ([], _) => none
  | (ds, rest) =>
      if ds.length > 1 && ds.head? = some '0' then none
      else
        match rest with
        | '.' :: _ => none
        | 'e' :: _ => none
        | 'E' :: _ => none
        | _ =>
            let n : Int := Int.ofNat (digitsVal ds)
            some (Json.int (if p.1 then -n else n), rest)

/-- Consume an expected literal tail (`ull`, `rue`, `alse`). -/
def dropLit : List Char → List Char → Option (List Char)
  | [], cs => some cs
  | l :: ls, c :: cs => if c = l then dropLit ls cs else none
  | _ :: _, [] => none

mutual

/-- One JSON value, by recursive descent with fuel (the fuel passed by
    `jsonLoads` always suffices: every recursive call consumes input). -/
def parseValue : Nat → List Char → Option (Json × List Char)
  | 0, _ => none
  | f + 1, cs =>
      match skipWs cs with
      | [] => none
      | c :: rest =>
          if c = 'n' then
            match dropLit ['u', 'l', 'l'] rest with
            | some r => some (Json.null, r)
            | none => none
          else if c = 't' then
            match dropLit ['r', 'u', 'e'] rest with
            | some r => some (Json.bool true, r)
            | none => none
          else if c = 'f' then
            match dropLit ['a', 'l', 's', 'e'] rest with
            | some r => some (Json.bool false, r)
            | none => none
          else if c = '"' then
            match parseStringBody rest with
            | some (sc, r) => some (Json.str ⟨sc⟩, r)
            | none => none
          else if c = '\x7b' then
            match skipWs rest with
            | '\x7d' :: r => some (Json.obj [], r)
            | cs2 => parseMembers f cs2 []
          else if c = '[' then
            match skipWs rest with
            | ']' :: r => some (Json.arr [], r)
            | cs2 => parseElements f cs2 []
          else if c = '-' || c.isDigit then parseIntFrom (c :: rest)
          else none

/-- Members of an object after `{`, building the dict like Python does
    (successive key assignments). -/
def parseMembers : Nat → List Char → List (String × Json) →
    Option (Json × List Char)
  | 0, _, _ => none
  | f + 1, cs, acc =>
      match skipWs cs with
      | '"' :: rest =>
          match parseStringBody rest with
          | some (key, r1) =>
              match skipWs r1 with
              | ':' :: r2 =>
                  match parseValue f r2 with
                  | some (v, r3) =>
                      let acc2 := assocSet acc ⟨key⟩ v
                      match skipWs r3 with
                      | ',' :: r4 => parseMembers f r4 acc2
                      | '\x7d' :: r4 => some (Json.obj acc2, r4)
                      | _ => none
                  | none => none
              | _ => none
          | none => none
      | _ => none

/-- Elements of an array after `[`. -/
def parseElements : Nat → List Char → List Json → Option (Json × List Char)
  | 0, _, _ => none
  | f + 1, cs, acc =>
      match parseValue f cs with
      | some (v, r1) =>
          match skipWs r1 with
          | ',' :: r2 => parseElements f r2 (acc ++ [v])
          | ']' :: r2 => some (Json.arr (acc ++ [v]), r2)
          | _ => none
      | none => none

end

/-- `json.loads`: trim insignificant outer whitespace (which `json.loads`
    ignores), read one value, require only whitespace to remain.  `none`
    models a raised `json.JSONDecodeError`. -/
def jsonLoads (s : String) : Option Json :=
  let cs := trimBy isJsonWs s.data
  match parseValue (cs.length + 1) cs with
  | some (v, rest) => if skipWs rest = [] then some v else none
  | none => none

example : jsonLoads "\x7b\"a\": 1, \"b\": \"x\"\x7d" =
    some (Json.obj [("a", Json.int 1), ("b", Json.str "x")]) := rfl

example : jsonLoads "  [1, -2, null, true]  " =
    some (Json.arr [Json.int 1, Json.int (-2), Json.null, Json.bool true]) := rfl

example : jsonLoads "\x60\x60\x60json" = none := rfl

/-! ### Mock data functions (`app.py` lines 65-90) -/

/-- First entry of the canned-roast pool in `get_mock_response`. -/
def mockRoast0 : Json :=
  Json.obj
    [("roast", Json.str "This idea is so derivative it makes a photocopier look original. You\x27re building a feature, not a product."),
     ("score", Json.int 15),
     ("action", Json.str "Pivot to something that solves a real problem for people with money.")]

/-- Second entry of the canned-roast pool in `get_mock_response`. -/
def mockRoast1 : Json :=
  Json.obj
    [("roast", Json.str "The only thing \x27revolutionary\x27 about this is how quickly you\x27ll burn through your savings. No one needs this."),
     ("score", Json.int 5),
     ("action", Json.str "Don\x27t quit your day job. Seriously.")]

/-- The fixed fallback pool (`responses` in `get_mock_response`). -/
def mockRoasts : List Json := [mockRoast0, mockRoast1]

/-- `get_mock_response(idea)`: `random.choice(responses)`, with the random
    draw made explicit as an index into the two-element pool.  The `idea`
    argument is accepted and ignored, as in the source. -/
def get_mock_response (_idea : String) (pick : Fin 2) : Json :=
  if pick = 0 then mockRoast0 else mockRoast1

/-- `get_mock_plan(idea)`: the fixed canned plan text (a Python
    triple-quoted literal; the `idea` argument is ignored). -/
def get_mock_plan (_idea : String) : String :=
  "\n    1. Validation: Go to Reddit r/SaaS and ask if anyone would pay for this. (Spoiler: No).\n    2. MVP: Build a landing page in 1 hour using Carrd. Do not write code.\n    3. Outreach: Cold email 50 potential users. If 0 reply, kill the idea.\n    4. Pivot: Realize the market is too small. Switch to selling shovels to other AI startups.\n    5. Scale: If by miracle you get users, automate the backend with Python.\n    "

/-! ### API functions (`app.py` lines 137-181) -/

/-- The CRITIQUE prompt f-string built in `get_ai_response`. -/
def roastPrompt (idea : String) : String :=
  "\n        You are a brutal VC investor. Analyze this SaaS idea:\n        \"" ++
  idea ++
  "\"\n        Return a pure JSON response with exactly three keys: \n        \"roast\" (a 2-sentence harsh critique), \n        \"score\" (an integer 0-100), \n        and \"action\" (one specific next step). \n        Do not wrap in markdown code blocks. Output raw JSON only.\n        "

/-- The PLAN prompt f-string built in `get_execution_plan`. -/
def planPrompt (idea : String) : String :=
  "\n        Write a detailed 5-step execution plan for this SaaS idea:\n        \"" ++
  idea ++
  "\"\n        Be specific, actionable, and ruthless. \n        Format it as a clean numbered list.\n        Do not use markdown formatting (no bolding, no italics) to ensure clean PDF generation.\n        "

/-- `text_response[7:]` applied only when the text starts with the exact
    characters `` ```json `` (`app.py` line 155). -/
def dropJsonFenceOpen (t : String) : String :=
  if strStartsWith t "\x60\x60\x60json" then strDrop t 7 else t

/-- `text_response[:-3]` applied whenever the text ends with `` ``` ``
    (`app.py` line 156). -/
def dropFenceClose (t : String) : String :=
  if strEndsWith t "\x60\x60\x60" then strDropRight t 3 else t

/-- The cleanup pipeline of `get_ai_response` (lines 153-156):
    `response.text.strip()`, then the two fence-stripping steps. -/
def roastCleanup (raw : String) : String :=
  dropFenceClose (dropJsonFenceOpen (pyStrip raw))

/-- The prefix of the `result["error"]` message set on the fallback path
    (lines 161): `str(e)` of the caught exception is appended. -/
def apiErrorNote (e : String) : String :=
  "⚠️ API Quota/Error (Using Mock Data): " ++ e

/-- The message text `str(e)` of a raised `json.JSONDecodeError`.  Its
    exact wording is produced by the json library and varies with the
    input; it is modelled as a fixed token, and no claim depends on its
    content beyond it being appended to the error note. -/
def jsonDecodeErrMsg : String := "Expecting value"

/-- `result["error"] = msg` on the fallback dict. -/
def setErrorKey (j : Json) (msg : String) : Json :=
  match j with
  | Json.obj kvs => Json.obj (assocSet kvs "error" (Json.str msg))
  | other => other

/-- `get_ai_response(idea)` (`app.py` lines 137-162).  The whole body sits
    in a `try`: on a raised completion call (`Except.error e`) or a failed
    `json.loads` (`none`), the canned fallback is returned with the error
    note attached; the function is total, so it never raises outward.
    `up` is the external completion call (prompt ↦ outcome), `pick` the
    `random.choice` draw used if the fallback is reached. -/
def get_ai_response (idea : String) (up : String → Except String String)
    (pick : Fin 2) : Json :=
  match up (roastPrompt idea) with
  | Except.ok raw =>
      match jsonLoads (roastCleanup raw) with
      | some v => v
      | none => setErrorKey (get_mock_response idea pick) (apiErrorNote jsonDecodeErrMsg)
  | Except.error e => setErrorKey (get_mock_response idea pick) (apiErrorNote e)

/-- `get_execution_plan(idea)` (`app.py` lines 164-181): the raw response
    text on success; on any raised error, the canned plan with the system
    note appended.  Total, hence never raises outward. -/
def get_execution_plan (idea : String) (up : String → Except String String) : String :=
  match up (planPrompt idea) with
  | Except.ok t => t
  | Except.error e =>
      get_mock_plan idea ++
        ("\n\n*(System Note: Generated via Mock due to API Error: " ++ e ++ ")*")

/-! ### Session state and UI handlers (`app.py` lines 200-251) -/

/-- The per-session mutable state (`st.session_state`): `roast_result` is
    `None` or the value returned by `get_ai_response`; `execution_plan` is
    `None` or the text returned by `get_execution_plan`. -/
structure SessionState where
  roast_result : Option Json
  execution_plan : Option String

/-- Initial session state (lines 203-206). -/
def initialSession : SessionState := ⟨none, none⟩

/-- What the "Roast My Idea" button handler surfaced to the user. -/
inductive SubmitOutcome where
  | emptyWarning : SubmitOutcome
  | missingKeyError : SubmitOutcome
  | roasted : SubmitOutcome

/-- Python falsiness of `api_key` (`os.getenv`: unset gives `None`, and an
    empty string is also falsy). -/
def pyFalsy : Option String → Bool
  | none => true
  | some s => s = ""

/-- The "Roast My Idea 🔥" button handler (`app.py` lines 209-217).
    Returns the new session state, the surfaced outcome, and the list of
    prompts sent to the completion service during the handler (empty on
    both rejection branches; exactly the one roast prompt otherwise).
    On the submit branch the handler stores the new roast and resets
    `execution_plan` to `None` (line 217). -/
def submitIdea (api_key : Option String) (idea_input : String)
    (up : String → Except String String) (pick : Fin 2)
    (s : SessionState) : SessionState × SubmitOutcome × List String :=
  if pyStrip idea_input = "" then (s, SubmitOutcome.emptyWarning, [])
  else if pyFalsy api_key then (s, SubmitOutcome.missingKeyError, [])
  else
    (⟨some (get_ai_response idea_input up pick), none⟩,
     SubmitOutcome.roasted, [roastPrompt idea_input])

/-- Python truthiness of a `json.loads` value (`if st.session_state.roast_result:`). -/
def jsonTruthy : Json → Bool
  | Json.null => false
  | Json.bool b => b
  | Json.int n => n ≠ 0
  | Json.str s => s ≠ ""
  | Json.arr l => !l.isEmpty
  | Json.obj l => !l.isEmpty

/-- The results section with the "Unlock Execution Roadmap" expander
    (`app.py` lines 220 and 245-250): runs only when a truthy
    `roast_result` is present; generates a plan only when
    `execution_plan` is `None`, otherwise reuses the cached text.
    Returns the new state and the list of prompts sent to the completion
    service. -/
def viewExecutionPlan (idea_input : String)
    (up : String → Except String String) (s : SessionState) :
    SessionState × List String :=
  match s.roast_result with
  | some r =>
      if jsonTruthy r then
        match s.execution_plan with
        | none =>
            ({ s with execution_plan := some (get_execution_plan idea_input up) },
             [planPrompt idea_input])
        | some _ => (s, [])
      else (s, [])
  | none => (s, [])

/-! ### Helper lemmas: trimming and fence shapes -/

lemma data_append (s t : String) : (s ++ t).data = s.data ++ t.data := rfl

lemma isPyWs_bt : isPyWs '\x60' = false := rfl

lemma isJsonWs_bt : isJsonWs '\x60' = false := rfl

lemma isJsonWs_nl : isJsonWs '\n' = true := rfl

lemma trimBy_eq_self (q : Char → Bool) (l : List Char)
    (h1 : List.dropWhile q l = l) (h2 : List.dropWhile q l.reverse = l.reverse) :
    trimBy q l = l := by
  simp [trimBy, h1, h2]

lemma trimBy_cons_of_ws (q : Char → Bool) (c : Char) (l : List Char)
    (hc : q c = true) : trimBy q (c :: l) = trimBy q l := by
  simp [trimBy, List.dropWhile_cons, hc]

lemma dropWhile_append_one (q : Char → Bool) (c : Char) (l : List Char) :
    List.dropWhile q (l ++ [c]) =
      if List.dropWhile q l = [] then List.dropWhile q [c]
      else List.dropWhile q l ++ [c] := by
  induction l with
  | nil => simp
  | cons a l ih =>
    by_cases ha : q a = true
    · simpa [List.dropWhile_cons, ha] using ih
    · simp [List.dropWhile_cons, ha]

lemma trimBy_append_of_ws (q : Char → Bool) (c : Char) (l : List Char)
    (hc : q c = true) : trimBy q (l ++ [c]) = trimBy q l := by
  unfold trimBy
  rw [dropWhile_append_one]
  by_cases h : List.dropWhile q l = []
  · simp [h, List.dropWhile_cons, hc]
  · rw [if_neg h, List.reverse_append]
    simp [List.dropWhile_cons, hc]

lemma trimBy_cons_head (q : Char → Bool) (c : Char) (l : List Char)
    (hc : q c = false) : ∃ m, trimBy q (c :: l) = c :: m := by
  have h1 : List.dropWhile q (c :: l) = c :: l := by
    simp [List.dropWhile_cons, hc]
  have h2 : ∀ r : List Char, ∃ d, List.dropWhile q (r ++ [c]) = d ++ [c] := by
    intro r
    induction r with
    | nil => exact ⟨[], by simp [List.dropWhile_cons, hc]⟩
    | cons a r ih =>
      by_cases ha : q a = true
      · simpa [List.dropWhile_cons, ha] using ih
      · exact ⟨a :: r, by simp [List.dropWhile_cons, ha]⟩
  obtain ⟨d, hd⟩ := h2 l.reverse
  refine ⟨d.reverse, ?_⟩
  simp [trimBy, h1, List.reverse_cons, hd]

/-- Padding a text with one newline on each side does not change what
    `json.loads` returns (the whitespace is insignificant). -/
lemma jsonLoads_pad (l : List Char) :
    jsonLoads ⟨'\n' :: (l ++ ['\n'])⟩ = jsonLoads ⟨l⟩ := by
  have h : trimBy isJsonWs ('\n' :: (l ++ ['\n'])) = trimBy isJsonWs l := by
    rw [trimBy_cons_of_ws _ _ _ isJsonWs_nl, trimBy_append_of_ws _ _ _ isJsonWs_nl]
  simp [jsonLoads, h]

/-- `parseValue` refuses any text whose first significant character is a
    backtick. -/
lemma parseValue_bt (f : Nat) (xs : List Char) :
    parseValue f ('\x60' :: xs) = none := by
  cases f with
  | zero => rfl
  | succ f => simp [parseValue, skipWs, isJsonWs_bt]

/-- `json.loads` fails on any text starting with a backtick. -/
lemma jsonLoads_bt (xs : List Char) : jsonLoads ⟨'\x60' :: xs⟩ = none := by
  obtain ⟨m, hm⟩ := trimBy_cons_head isJsonWs '\x60' xs isJsonWs_bt
  simp [jsonLoads, hm, parseValue_bt]

lemma dataFenceJsonNl :
    ("\x60\x60\x60json\n" : String).data =
      ['\x60', '\x60', '\x60', 'j', 's', 'o', 'n', '\n'] := rfl

lemma dataNlFence :
    ("\n\x60\x60\x60" : String).data = ['\n', '\x60', '\x60', '\x60'] := rfl

lemma dataFenceNl :
    ("\x60\x60\x60\n" : String).data = ['\x60', '\x60', '\x60', '\n'] := rfl

/-- `.data` of the `` ```json ``-fenced wrapping. -/
lemma wrapJson_data (p : String) :
    ("\x60\x60\x60json\n" ++ p ++ "\n\x60\x60\x60").data =
      '\x60' :: '\x60' :: '\x60' :: 'j' :: 's' :: 'o' :: 'n' :: '\n' ::
        (p.data ++ ['\n', '\x60', '\x60', '\x60']) := by
  simp [data_append, dataFenceJsonNl, dataNlFence]

/-- `.data` of the bare-fence wrapping. -/
lemma wrapBare_data (p : String) :
    ("\x60\x60\x60\n" ++ p ++ "\n\x60\x60\x60").data =
      '\x60' :: '\x60' :: '\x60' :: '\n' ::
        (p.data ++ ['\n', '\x60', '\x60', '\x60']) := by
  simp [data_append, dataFenceNl, dataNlFence]

/-- The cleanup pipeline on the `` ```json ``-fenced wrapping: `strip` is
    the identity, the opening fence is dropped, the closing fence is
    dropped, leaving the payload padded by one newline on each side. -/
lemma roastCleanup_json_fence (p : String) :
    roastCleanup ("\x60\x60\x60json\n" ++ p ++ "\n\x60\x60\x60") =
      ⟨'\n' :: (p.data ++ ['\n'])⟩ := by
  have hdata := wrapJson_data p
  have h1 : pyStrip ("\x60\x60\x60json\n" ++ p ++ "\n\x60\x60\x60") =
      ("\x60\x60\x60json\n" ++ p ++ "\n\x60\x60\x60") := by
    apply String.ext
    show trimBy isPyWs ("\x60\x60\x60json\n" ++ p ++ "\n\x60\x60\x60").data = _
    rw [hdata]
    apply trimBy_eq_self
    · simp [List.dropWhile_cons, isPyWs_bt]
    · simp [List.reverse_cons, List.reverse_append, List.dropWhile_cons, isPyWs_bt]
  have hpre : strStartsWith ("\x60\x60\x60json\n" ++ p ++ "\n\x60\x60\x60")
      "\x60\x60\x60json" = true := by
    unfold strStartsWith
    rw [hdata]
    rfl
  have h2 : dropJsonFenceOpen ("\x60\x60\x60json\n" ++ p ++ "\n\x60\x60\x60") =
      ⟨'\n' :: (p.data ++ ['\n', '\x60', '\x60', '\x60'])⟩ := by
    unfold dropJsonFenceOpen
    rw [if_pos hpre]
    apply String.ext
    show ("\x60\x60\x60json\n" ++ p ++ "\n\x60\x60\x60").data.drop 7 = _
    rw [hdata]
    rfl
  have hsuf : strEndsWith (⟨'\n' :: (p.data ++ ['\n', '\x60', '\x60', '\x60'])⟩ : String)
      "\x60\x60\x60" = true := by
    unfold strEndsWith
    show hasPrefixChars _ (('\n' :: (p.data ++ ['\n', '\x60', '\x60', '\x60'])).reverse) = true
    simp [List.reverse_cons, List.reverse_append, hasPrefixChars]
  have h3 : dropFenceClose ⟨'\n' :: (p.data ++ ['\n', '\x60', '\x60', '\x60'])⟩ =
      ⟨'\n' :: (p.data ++ ['\n'])⟩ := by
    unfold dropFenceClose
    rw [if_pos hsuf]
    apply String.ext
    show (('\n' :: (p.data ++ ['\n', '\x60', '\x60', '\x60'])).reverse.drop 3).reverse = _
    simp [List.reverse_cons, List.reverse_append]
  unfold roastCleanup
  rw [h1, h2, h3]

/-- The cleanup pipeline on the bare-fence wrapping: `strip` is the
    identity, the opening fence is NOT dropped (the text does not start
    with `` ```json ``), the closing fence is dropped; the leading fence
    survives into the parse. -/
lemma roastCleanup_bare_fence (p : String) :
    roastCleanup ("\x60\x60\x60\n" ++ p ++ "\n\x60\x60\x60") =
      ⟨'\x60' :: '\x60' :: '\x60' :: '\n' :: (p.data ++ ['\n'])⟩ := by
  have hdata := wrapBare_data p
  have h1 : pyStrip ("\x60\x60\x60\n" ++ p ++ "\n\x60\x60\x60") =
      ("\x60\x60\x60\n" ++ p ++ "\n\x60\x60\x60") := by
    apply String.ext
    show trimBy isPyWs ("\x60\x60\x60\n" ++ p ++ "\n\x60\x60\x60").data = _
    rw [hdata]
    apply trimBy_eq_self
    · simp [List.dropWhile_cons, isPyWs_bt]
    · simp [List.reverse_cons, List.reverse_append, List.dropWhile_cons, isPyWs_bt]
  have hpre : strStartsWith ("\x60\x60\x60\n" ++ p ++ "\n\x60\x60\x60")
      "\x60\x60\x60json" = false := by
    unfold strStartsWith
    rw [hdata]
    rfl
  have h2 : dropJsonFenceOpen ("\x60\x60\x60\n" ++ p ++ "\n\x60\x60\x60") =
      ("\x60\x60\x60\n" ++ p ++ "\n\x60\x60\x60") := by
    unfold dropJsonFenceOpen
    rw [hpre]
    simp
  have hsuf : strEndsWith ("\x60\x60\x60\n" ++ p ++ "\n\x60\x60\x60")
      "\x60\x60\x60" = true := by
    unfold strEndsWith
    rw [hdata]
    simp [List.reverse_cons, List.reverse_append, hasPrefixChars]
  have h3 : dropFenceClose ("\x60\x60\x60\n" ++ p ++ "\n\x60\x60\x60") =
      ⟨'\x60' :: '\x60' :: '\x60' :: '\n' :: (p.data ++ ['\n'])⟩ := by
    unfold dropFenceClose
    rw [if_pos hsuf]
    apply String.ext
    show (("\x60\x60\x60\n" ++ p ++ "\n\x60\x60\x60").data.reverse.drop 3).reverse = _
    rw [hdata]
    simp [List.reverse_cons, List.reverse_append]
  unfold roastCleanup
  rw [h1, h2, h3]

/-! ### Spec-side predicates -/

/-- The spec's `score ∈ [0,100]` reading of a result: the `score` field is
    present, is an integer, and lies in `[0,100]`. -/
def scoreInRangeB (j : Json) : Bool :=
  match j.lookup "score" with
  | some (Json.int n) => if 0 ≤ n ∧ n ≤ 100 then true else false
  | _ => false

/-! ### Evaluation lemmas for the acquisition functions -/

lemma get_ai_response_err (idea e : String) (up : String → Except String String)
    (pick : Fin 2) (h : up (roastPrompt idea) = Except.error e) :
    get_ai_response idea up pick =
      setErrorKey (get_mock_response idea pick) (apiErrorNote e) := by
  unfold get_ai_response
  rw [h]

lemma get_ai_response_ok (idea raw : String) (up : String → Except String String)
    (pick : Fin 2) (h : up (roastPrompt idea) = Except.ok raw) :
    get_ai_response idea up pick =
      match jsonLoads (roastCleanup raw) with
      | some v => v
      | none => setErrorKey (get_mock_response idea pick) (apiErrorNote jsonDecodeErrMsg) := by
  unfold get_ai_response
  rw [h]

lemma get_ai_response_parse_ok (idea raw : String) (up : String → Except String String)
    (pick : Fin 2) (v : Json) (h : up (roastPrompt idea) = Except.ok raw)
    (hp : jsonLoads (roastCleanup raw) = some v) :
    get_ai_response idea up pick = v := by
  rw [get_ai_response_ok idea raw up pick h, hp]

lemma get_ai_response_parse_fail (idea raw : String) (up : String → Except String String)
    (pick : Fin 2) (h : up (roastPrompt idea) = Except.ok raw)
    (hp : jsonLoads (roastCleanup raw) = none) :
    get_ai_response idea up pick =
      setErrorKey (get_mock_response idea pick) (apiErrorNote jsonDecodeErrMsg) := by
  rw [get_ai_response_ok idea raw up pick h, hp]

lemma get_execution_plan_ok (idea t : String) (up : String → Except String String)
    (h : up (planPrompt idea) = Except.ok t) : get_execution_plan idea up = t := by
  unfold get_execution_plan
  rw [h]

lemma get_execution_plan_err (idea e : String) (up : String → Except String String)
    (h : up (planPrompt idea) = Except.error e) :
    get_execution_plan idea up =
      get_mock_plan idea ++
        ("\n\n*(System Note: Generated via Mock due to API Error: " ++ e ++ ")*") := by
  unfold get_execution_plan
  rw [h]

/-- Both canned fallbacks carry a score in `[0,100]` (15 and 5), with or
    without the error note attached. -/
lemma scoreInRangeB_fallback (idea msg : String) (pick : Fin 2) :
    scoreInRangeB (setErrorKey (get_mock_response idea pick) msg) = true := by
  fin_cases pick <;> rfl

example : scoreInRangeB mockRoast0 = true := rfl
example : scoreInRangeB mockRoast1 = true := rfl
example :
    get_ai_response "i" (fun _ => Except.error "boom") 1 =
      setErrorKey mockRoast1 (apiErrorNote "boom") := rfl
example :
    get_ai_response "i"
      (fun _ => Except.ok "\x7b\"roast\": \"r\", \"score\": 150, \"action\": \"a\"\x7d") 0 =
      Json.obj [("roast", Json.str "r"), ("score", Json.int 150), ("action", Json.str "a")] := rfl

/-! ### Claims -/

/-- Claim C1, counterexample: when the completion call succeeds and returns
    valid JSON whose `score` is 150, `get_ai_response` returns a result
    whose score is 150 — NOT an integer in `[0,100]` — because the success
    path performs no range validation.  This refutes the claimed
    `score ∈ [0,100]` guarantee. -/
theorem c1_counterexample :
    scoreInRangeB (get_ai_response "a to-do app for dogs"
      (fun _ => Except.ok "\x7b\"roast\": \"meh\", \"score\": 150, \"action\": \"stop\"\x7d") 0)
      = false ∧
    (get_ai_response "a to-do app for dogs"
      (fun _ => Except.ok "\x7b\"roast\": \"meh\", \"score\": 150, \"action\": \"stop\"\x7d") 0).lookup "score"
      = some (Json.int 150) :=
  ⟨rfl, rfl⟩

/-- Claim C1, amended: `get_ai_response` never raises outward (it is a
    total function of the upstream outcome), and the `score ∈ [0,100]`
    bound holds on both fallback paths (raised completion call, failed
    parse); when the cleaned output parses successfully the parsed payload
    is returned as-is, with no validation of the score field. -/
theorem c1_no_throw_score_range (idea : String) (up : String → Except String String)
    (pick : Fin 2) :
    (∀ e, up (roastPrompt idea) = Except.error e →
      scoreInRangeB (get_ai_response idea up pick) = true) ∧
    (∀ raw, up (roastPrompt idea) = Except.ok raw →
      jsonLoads (roastCleanup raw) = none →
      scoreInRangeB (get_ai_response idea up pick) = true) ∧
    (∀ raw v, up (roastPrompt idea) = Except.ok raw →
      jsonLoads (roastCleanup raw) = some v →
      get_ai_response idea up pick = v) := by
  refine ⟨?_, ?_, ?_⟩
  · intro e he
    rw [get_ai_response_err idea e up pick he]
    exact scoreInRangeB_fallback idea (apiErrorNote e) pick
  · intro raw hraw hparse
    rw [get_ai_response_parse_fail idea raw up pick hraw hparse]
    exact scoreInRangeB_fallback idea (apiErrorNote jsonDecodeErrMsg) pick
  · intro raw v hraw hparse
    exact get_ai_response_parse_ok idea raw up pick v hraw hparse

/-- Claim C1, witness for the amended theorem at a concrete raising
    upstream double. -/
theorem c1_witness :
    scoreInRangeB (get_ai_response "sell shovels"
      (fun _ => Except.error "429 quota exceeded") 1) = true :=
  (c1_no_throw_score_range "sell shovels"
    (fun _ => Except.error "429 quota exceeded") 1).1 "429 quota exceeded" rfl

/-- Claim C2, counterexample: a successful upstream payload with
    `score = 150` is NOT treated as a parse failure: `get_ai_response`
    returns the parsed record itself (score passed through, no error
    marker, no canned fallback, no clamping). -/
theorem c2_counterexample :
    get_ai_response "uber for plants"
      (fun _ => Except.ok "\x7b\"roast\": \"no\", \"score\": 150, \"action\": \"quit\"\x7d") 0
      = Json.obj [("roast", Json.str "no"), ("score", Json.int 150), ("action", Json.str "quit")] ∧
    (get_ai_response "uber for plants"
      (fun _ => Except.ok "\x7b\"roast\": \"no\", \"score\": 150, \"action\": \"quit\"\x7d") 0).lookup "error"
      = none :=
  ⟨rfl, rfl⟩

/-- Claim C2, amended: when the upstream call succeeds and its cleaned
    payload parses, `get_ai_response` returns the parsed record unchanged
    even when its `score` lies outside `[0,100]`: the out-of-range score
    is passed through, neither clamped nor treated as a parse failure. -/
theorem c2_out_of_range_passthrough (idea raw : String)
    (up : String → Except String String) (pick : Fin 2) (v : Json) (n : Int)
    (hok : up (roastPrompt idea) = Except.ok raw)
    (hparse : jsonLoads (roastCleanup raw) = some v)
    (_hscore : v.lookup "score" = some (Json.int n))
    (_hout : n < 0 ∨ 100 < n) :
    get_ai_response idea up pick = v :=
  get_ai_response_parse_ok idea raw up pick v hok hparse

/-- Claim C2, witness for the amended theorem at the concrete score-150
    double. -/
theorem c2_witness :
    get_ai_response "uber for cats"
      (fun _ => Except.ok "\x7b\"roast\": \"no\", \"score\": 150, \"action\": \"quit\"\x7d") 1
      = Json.obj [("roast", Json.str "no"), ("score", Json.int 150), ("action", Json.str "quit")] :=
  c2_out_of_range_passthrough "uber for cats" "\x7b\"roast\": \"no\", \"score\": 150, \"action\": \"quit\"\x7d"
    (fun _ => Except.ok "\x7b\"roast\": \"no\", \"score\": 150, \"action\": \"quit\"\x7d") 1
    (Json.obj [("roast", Json.str "no"), ("score", Json.int 150), ("action", Json.str "quit")])
    150 rfl rfl rfl (Or.inr (by norm_num))

/-- Claim C3: on a raised completion call, and likewise on a failed parse
    of a successful response, `get_ai_response` returns a result whose
    `roast`/`score`/`action` are those of a member of the fixed two-entry
    fallback pool, with the `error` field set to the human-readable note
    naming the cause; the fallback path is total, hence never raises. -/
theorem c3_degraded_fallback (idea : String) (up : String → Except String String)
    (pick : Fin 2) :
    (∀ e, up (roastPrompt idea) = Except.error e →
      (∃ mk, mk ∈ mockRoasts ∧
        (get_ai_response idea up pick).lookup "roast" = mk.lookup "roast" ∧
        (get_ai_response idea up pick).lookup "score" = mk.lookup "score" ∧
        (get_ai_response idea up pick).lookup "action" = mk.lookup "action") ∧
      (get_ai_response idea up pick).lookup "error" = some (Json.str (apiErrorNote e))) ∧
    (∀ raw, up (roastPrompt idea) = Except.ok raw →
      jsonLoads (roastCleanup raw) = none →
      (∃ mk, mk ∈ mockRoasts ∧
        (get_ai_response idea up pick).lookup "roast" = mk.lookup "roast" ∧
        (get_ai_response idea up pick).lookup "score" = mk.lookup "score" ∧
        (get_ai_response idea up pick).lookup "action" = mk.lookup "action") ∧
      (get_ai_response idea up pick).lookup "error" = some (Json.str (apiErrorNote jsonDecodeErrMsg))) ∧
    2 ≤ mockRoasts.length := by
  refine ⟨?_, ?_, Nat.le.refl⟩
  · intro e he
    rw [get_ai_response_err idea e up pick he]
    fin_cases pick
    · exact ⟨⟨mockRoast0, List.Mem.head _, rfl, rfl, rfl⟩, rfl⟩
    · exact ⟨⟨mockRoast1, List.Mem.tail _ (List.Mem.head _), rfl, rfl, rfl⟩, rfl⟩
  · intro raw hraw hparse
    rw [get_ai_response_parse_fail idea raw up pick hraw hparse]
    fin_cases pick
    · exact ⟨⟨mockRoast0, List.Mem.head _, rfl, rfl, rfl⟩, rfl⟩
    · exact ⟨⟨mockRoast1, List.Mem.tail _ (List.Mem.head _), rfl, rfl, rfl⟩, rfl⟩

/-- Claim C3, witness at a concrete transport-error double. -/
theorem c3_witness :
    (∃ mk, mk ∈ mockRoasts ∧
      (get_ai_response "ai pet rocks" (fun _ => Except.error "DNS failure") 0).lookup "roast"
        = mk.lookup "roast" ∧
      (get_ai_response "ai pet rocks" (fun _ => Except.error "DNS failure") 0).lookup "score"
        = mk.lookup "score" ∧
      (get_ai_response "ai pet rocks" (fun _ => Except.error "DNS failure") 0).lookup "action"
        = mk.lookup "action") ∧
    (get_ai_response "ai pet rocks" (fun _ => Except.error "DNS failure") 0).lookup "error"
      = some (Json.str (apiErrorNote "DNS failure")) :=
  (c3_degraded_fallback "ai pet rocks" (fun _ => Except.error "DNS failure") 0).1 "DNS failure" rfl

/-- Claim C4: a valid payload wrapped in a `` ```json `` fenced code block
    parses identically to the unwrapped payload — the wrapping is stripped
    before parsing, and both upstream texts yield the same result. -/
theorem c4_fence_roundtrip (idea p : String) (pick : Fin 2) (v : Json)
    (hstrip : pyStrip p = p)
    (hopen : strStartsWith p "\x60\x60\x60json" = false)
    (hclose : strEndsWith p "\x60\x60\x60" = false)
    (hparse : jsonLoads p = some v) :
    get_ai_response idea
      (fun _ => Except.ok ("\x60\x60\x60json\n" ++ p ++ "\n\x60\x60\x60")) pick = v ∧
    get_ai_response idea (fun _ => Except.ok p) pick = v := by
  have h1 : jsonLoads (roastCleanup ("\x60\x60\x60json\n" ++ p ++ "\n\x60\x60\x60")) = some v := by
    rw [roastCleanup_json_fence p, jsonLoads_pad p.data]
    exact hparse
  have h2 : jsonLoads (roastCleanup p) = some v := by
    unfold roastCleanup dropJsonFenceOpen dropFenceClose
    rw [hstrip]
    simp [hopen, hclose, hparse]
  exact ⟨get_ai_response_parse_ok idea ("\x60\x60\x60json\n" ++ p ++ "\n\x60\x60\x60")
           (fun _ => Except.ok ("\x60\x60\x60json\n" ++ p ++ "\n\x60\x60\x60")) pick v rfl h1,
         get_ai_response_parse_ok idea p (fun _ => Except.ok p) pick v rfl h2⟩

/-- Claim C4, witness at a concrete valid payload. -/
theorem c4_witness :
    get_ai_response "i"
      (fun _ => Except.ok ("\x60\x60\x60json\n" ++
        "\x7b\"roast\": \"r\", \"score\": 42, \"action\": \"a\"\x7d" ++ "\n\x60\x60\x60")) 0
      = Json.obj [("roast", Json.str "r"), ("score", Json.int 42), ("action", Json.str "a")] ∧
    get_ai_response "i"
      (fun _ => Except.ok "\x7b\"roast\": \"r\", \"score\": 42, \"action\": \"a\"\x7d") 0
      = Json.obj [("roast", Json.str "r"), ("score", Json.int 42), ("action", Json.str "a")] :=
  c4_fence_roundtrip "i" "\x7b\"roast\": \"r\", \"score\": 42, \"action\": \"a\"\x7d" 0
    (Json.obj [("roast", Json.str "r"), ("score", Json.int 42), ("action", Json.str "a")])
    rfl rfl rfl rfl

/-- Claim C5: a successful submission (non-blank idea, credential present)
    stores the new roast and resets the session's plan state to `None`,
    discarding any previously acquired plan; the only upstream call made by
    the handler is the roast call — no plan call occurs until the expander
    requests one for the new idea. -/
theorem c5_submit_resets_plan (key : Option String) (idea : String)
    (up : String → Except String String) (pick : Fin 2) (s : SessionState)
    (hidea : ¬ pyStrip idea = "") (hkey : pyFalsy key = false) :
    (submitIdea key idea up pick s).1.execution_plan = none ∧
    (submitIdea key idea up pick s).2.2 = [roastPrompt idea] := by
  simp [submitIdea, hidea, hkey]

/-- Claim C5, witness: submitting idea B over a session that holds a roast
    and a completed plan for idea A. -/
theorem c5_witness :
    (submitIdea (some "key123") "idea B" (fun _ => Except.error "quota") 0
      ⟨some mockRoast0, some "old plan for A"⟩).1.execution_plan = none ∧
    (submitIdea (some "key123") "idea B" (fun _ => Except.error "quota") 0
      ⟨some mockRoast0, some "old plan for A"⟩).2.2 = [roastPrompt "idea B"] :=
  c5_submit_resets_plan (some "key123") "idea B" (fun _ => Except.error "quota") 0
    ⟨some mockRoast0, some "old plan for A"⟩ (by decide) rfl

/-- Claim C6: the execution plan is produced lazily and at most once per
    roast: with a cached plan the expander makes no upstream call and the
    state is unchanged, and rendering the expander twice in a row never
    makes a plan call the second time. -/
theorem c6_plan_lazy_once (idea : String) (up : String → Except String String)
    (s : SessionState) :
    (∀ p, s.execution_plan = some p → viewExecutionPlan idea up s = (s, [])) ∧
    (viewExecutionPlan idea up (viewExecutionPlan idea up s).1).2 = [] := by
  constructor
  · intro p hp
    rcases hr : s.roast_result with _ | r
    · simp [viewExecutionPlan, hr]
    · by_cases ht : jsonTruthy r = true
      · simp [viewExecutionPlan, hr, ht, hp]
      · simp [viewExecutionPlan, hr, ht]
  · rcases hr : s.roast_result with _ | r
    · simp [viewExecutionPlan, hr]
    · by_cases ht : jsonTruthy r = true
      · rcases hp : s.execution_plan with _ | p
        · simp [viewExecutionPlan, hr, ht, hp]
        · simp [viewExecutionPlan, hr, ht, hp]
      · simp [viewExecutionPlan, hr, ht]

/-- Claim C6, witness: a session with a cached plan is left unchanged and
    no plan call is made. -/
theorem c6_witness :
    viewExecutionPlan "i" (fun _ => Except.ok "fresh plan")
      ⟨some mockRoast0, some "cached plan"⟩ =
      (⟨some mockRoast0, some "cached plan"⟩, []) :=
  (c6_plan_lazy_once "i" (fun _ => Except.ok "fresh plan")
    ⟨some mockRoast0, some "cached plan"⟩).1 "cached plan" rfl

/-- Claim C7: a whitespace-only (or empty) idea is rejected locally with
    the warning, the session state is unchanged, and no upstream call is
    made. -/
theorem c7_whitespace_rejected (key : Option String) (idea : String)
    (up : String → Except String String) (pick : Fin 2) (s : SessionState)
    (h : pyStrip idea = "") :
    submitIdea key idea up pick s = (s, SubmitOutcome.emptyWarning, []) := by
  simp [submitIdea, h]

/-- Claim C7, witness at a whitespace-only idea. -/
theorem c7_witness :
    submitIdea (some "key123") " \t\n  " (fun _ => Except.error "unreachable") 0
      initialSession = (initialSession, SubmitOutcome.emptyWarning, []) :=
  c7_whitespace_rejected (some "key123") " \t\n  " (fun _ => Except.error "unreachable") 0
    initialSession (by decide)

/-- Claim C8: with no API credential configured (or an empty one), a
    submission with a non-blank idea surfaces the configuration error and
    makes no upstream call; the acquisition path is not entered. -/
theorem c8_no_key_rejected (key : Option String) (idea : String)
    (up : String → Except String String) (pick : Fin 2) (s : SessionState)
    (h1 : ¬ pyStrip idea = "") (h2 : pyFalsy key = true) :
    submitIdea key idea up pick s = (s, SubmitOutcome.missingKeyError, []) := by
  simp [submitIdea, h1, h2]

/-- Claim C8, witness: no credential, idea "sell shovels". -/
theorem c8_witness :
    submitIdea none "sell shovels" (fun _ => Except.error "unreachable") 0
      initialSession = (initialSession, SubmitOutcome.missingKeyError, []) :=
  c8_no_key_rejected none "sell shovels" (fun _ => Except.error "unreachable") 0
    initialSession (by decide) rfl

/-- Claim C9: `get_execution_plan` returns the upstream's raw prose text
    unchanged on success (no structured parsing), and on any raised
    upstream error returns the single fixed canned plan with the
    degradation marker appended; it is total, hence never raises. -/
theorem c9_plan_passthrough_or_canned (idea : String)
    (up : String → Except String String) :
    (∀ t, up (planPrompt idea) = Except.ok t → get_execution_plan idea up = t) ∧
    (∀ e, up (planPrompt idea) = Except.error e →
      get_execution_plan idea up =
        get_mock_plan idea ++
          ("\n\n*(System Note: Generated via Mock due to API Error: " ++ e ++ ")*")) :=
  ⟨fun t ht => get_execution_plan_ok idea t up ht,
   fun e he => get_execution_plan_err idea e up he⟩

/-- Claim C9, witness: raw prose passed through unchanged. -/
theorem c9_witness :
    get_execution_plan "i" (fun _ => Except.ok "1. Do the thing.") =
      "1. Do the thing." :=
  (c9_plan_passthrough_or_canned "i" (fun _ => Except.ok "1. Do the thing.")).1
    "1. Do the thing." rfl

/-- Claim C10 (implicit): the opening fence is removed only when the text
    starts with the exact characters `` ```json ``; the closing fence is
    removed whenever present; and a payload wrapped in a bare `` ``` ``
    fence keeps its leading fence through cleanup, so the parse fails and
    the degraded fallback is returned. -/
theorem c10_fence_open_exact :
    (∀ t : String, strStartsWith t "\x60\x60\x60json" = false →
      dropJsonFenceOpen t = t) ∧
    (∀ t : String, strEndsWith t "\x60\x60\x60" = true →
      dropFenceClose t = strDropRight t 3) ∧
    (∀ (idea p : String) (pick : Fin 2),
      strStartsWith (roastCleanup ("\x60\x60\x60\n" ++ p ++ "\n\x60\x60\x60"))
        "\x60\x60\x60" = true ∧
      (get_ai_response idea
        (fun _ => Except.ok ("\x60\x60\x60\n" ++ p ++ "\n\x60\x60\x60")) pick).lookup "error"
        = some (Json.str (apiErrorNote jsonDecodeErrMsg))) := by
  refine ⟨?_, ?_, ?_⟩
  · intro t ht
    unfold dropJsonFenceOpen
    rw [ht]
    simp
  · intro t ht
    unfold dropFenceClose
    rw [if_pos ht]
  · intro idea p pick
    have hfail : jsonLoads (roastCleanup ("\x60\x60\x60\n" ++ p ++ "\n\x60\x60\x60")) = none := by
      rw [roastCleanup_bare_fence p]
      exact jsonLoads_bt _
    constructor
    · rw [roastCleanup_bare_fence p]
      rfl
    · rw [get_ai_response_parse_fail idea ("\x60\x60\x60\n" ++ p ++ "\n\x60\x60\x60")
        (fun _ => Except.ok ("\x60\x60\x60\n" ++ p ++ "\n\x60\x60\x60")) pick rfl hfail]
      fin_cases pick <;> rfl

/-- Claim C10, witness for the two conditional stripping parts. -/
theorem c10_witness :
    dropJsonFenceOpen "\x60\x60\x60\nhello" = "\x60\x60\x60\nhello" ∧
    dropFenceClose "abc\x60\x60\x60" = strDropRight "abc\x60\x60\x60" 3 :=
  ⟨c10_fence_open_exact.1 "\x60\x60\x60\nhello" rfl,
   c10_fence_open_exact.2.1 "abc\x60\x60\x60" rfl⟩
